import Mathlib

/-!
Shallow embedding of the team-project-planner managers
(src/user_base.py, src/team_base.py, src/project_board_base.py).

Each manager persists one JSON object mapping string identifiers to records;
Python dicts (and json round-trips) preserve insertion order, so a collection
is modelled as an insertion-ordered association list over string keys.
Every operation loads the collection, validates, mutates and writes it back;
an operation is a function from the loaded collection (plus request fields)
to an Except value: an error models the raised ValueError, in which case the
write-back never runs and the stored collection is unchanged.
Request fields are strings; a missing field and an empty string both fail the
falsiness checks of the source identically, so absence is modelled as "".
Timestamps produced by datetime.now().isoformat() are passed in as an
explicit now argument.
-/

/-- Python dict read d[k] / d.get(k) on a string-keyed object: the value at
the first entry with key k, if any. -/
def dictGet (k : String) : List (String × α) → Option α
  | [] => none
  | (k₂, v) :: rest => if k₂ = k then some v else dictGet k rest

/-- Python membership test k in d. -/
def dictMem (k : String) (m : List (String × α)) : Bool :=
  (dictGet k m).isSome

/-- Python dict assignment d[k] = v: replaces the entry at key k in place if
present, otherwise appends the new entry at the end (insertion order). -/
def dictSet (k : String) (v : α) : List (String × α) → List (String × α)
  | [] => [(k, v)]
  | (k₂, w) :: rest => if k₂ = k then (k, v) :: rest else (k₂, w) :: dictSet k v rest

/-- True exactly when the operation raised (the Python call ended in
ValueError). -/
def isErr : Except ε α → Bool
  | .error _ => true
  | .ok _ => false

/-- The stored collection after running a mutating operation: the new
collection on success; on an error the write-back never executed, so the
collection on disk is the one loaded. -/
def commit (s : σ) : Except String (String × σ) → σ
  | .ok (_, s₂) => s₂
  | .error _ => s

/-! ## User store (src/user_base.py, class UserManager) -/

/-- A record of db/users.json. create_user writes only name, display_name and
creation_time; the id field models the optional JSON key id, which the
projections of describe_user and list_users read but which create_user never
writes (hence none for every record it creates). -/
structure UserRec where
  name : String
  display_name : String
  creation_time : String
  id : Option String
deriving Repr, DecidableEq

abbrev UserState := List (String × UserRec)

/-- UserManager.create_user: requires non-empty name and display_name of at
most 64 characters, rejects a duplicate name, assigns id str(len(users)+1)
and stores the record (without an id key). -/
def create_user (now : String) (users : UserState) (name display_name : String) :
    Except String (String × UserState) :=
  if name = "" ∨ display_name = "" then
    .error "Name and display name are required"
  else if name.length > 64 ∨ display_name.length > 64 then
    .error "Name and display name must be 64 characters or less"
  else if users.any (fun p => p.2.name == name) then
    .error "User name must be unique"
  else
    let user_id := toString (users.length + 1)
    .ok (user_id,
      dictSet user_id
        { name := name, display_name := display_name, creation_time := now, id := none }
        users)

/-- The projection both list_users and describe_user build from a stored
record; its first read is user of the id key, a KeyError when absent. -/
structure UserOut where
  id : String
  name : String
  display_name : String
  creation_time : String
deriving Repr, DecidableEq

/-- The dict literal built from a stored user by list_users and
describe_user: reading user of id raises KeyError when the record has no id
key. -/
def projectUser (u : UserRec) : Except String UserOut :=
  match u.id with
  | none => .error "KeyError: id"
  | some i =>
    .ok { id := i, name := u.name, display_name := u.display_name, creation_time := u.creation_time }

/-- UserManager.list_users: projects every stored record; the comprehension
raises on the first record lacking an id key. -/
def list_users (users : UserState) : Except String (List UserOut) :=
  users.mapM (fun p => projectUser p.2)

/-- UserManager.describe_user: requires a non-empty id, fails when the id is
not a key of the collection, then builds the projection (reading the id key
of the record first). -/
def describe_user (users : UserState) (user_id : String) : Except String UserOut :=
  if user_id = "" then .error "User ID is required"
  else
    match dictGet user_id users with
    | none => .error "User not found"
    | some u => projectUser u

/-- The user object of an update_user request; the documented fields are
name and display_name, each optional. -/
structure UserUpdate where
  name : Option String
  display_name : Option String
deriving Repr, DecidableEq

/-- Python dict.update of a stored user record with the request's user
object: each present field overwrites the stored one. -/
def applyUserUpdate (u : UserRec) (d : UserUpdate) : UserRec :=
  { u with name := d.name.getD u.name, display_name := d.display_name.getD u.display_name }

/-- UserManager.update_user: requires a non-empty id, length-checks the
fields present (name at most 64, display_name at most 128), requires the id
to exist, then dict-updates the record. No uniqueness check on name. -/
def update_user (users : UserState) (user_id : String) (d : UserUpdate) :
    Except String (String × UserState) :=
  if user_id = "" then .error "User ID is required"
  else if d.name.any (fun n => n.length > 64) then
    .error "Name must be 64 characters or less"
  else if d.display_name.any (fun n => n.length > 128) then
    .error "Display name must be 128 characters or less"
  else
    match dictGet user_id users with
    | none => .error "User not found"
    | some u => .ok (user_id, dictSet user_id (applyUserUpdate u d) users)

/-! ## Team store (src/team_base.py, class TeamManager) -/

/-- A record of db/teams.json. -/
structure TeamRec where
  name : String
  description : String
  admin : String
  creation_time : String
  users : List String
deriving Repr, DecidableEq

abbrev TeamState := List (String × TeamRec)

/-- TeamManager.create_team: requires non-empty name, description and admin,
length-checks them, rejects a duplicate team name, assigns id
str(len(teams)+1) and stores the record with an empty member list. -/
def create_team (now : String) (teams : TeamState) (name description admin : String) :
    Except String (String × TeamState) :=
  if name = "" ∨ description = "" ∨ admin = "" then
    .error "Name, description, and admin are required"
  else if name.length > 64 then .error "Name must be 64 characters or less"
  else if description.length > 128 then .error "Description must be 128 characters or less"
  else if teams.any (fun p => p.2.name == name) then
    .error "Team name must be unique"
  else
    let team_id := toString (teams.length + 1)
    .ok (team_id,
      dictSet team_id
        { name := name, description := description, admin := admin,
          creation_time := now, users := [] }
        teams)

/-- TeamManager.describe_team. -/
structure TeamOut where
  name : String
  description : String
  creation_time : String
  admin : String
deriving Repr, DecidableEq

/-- TeamManager.describe_team: requires a non-empty id and an existing team,
then projects the record. -/
def describe_team (teams : TeamState) (team_id : String) : Except String TeamOut :=
  if team_id = "" then .error "Team ID is required"
  else
    match dictGet team_id teams with
    | none => .error "Team not found"
    | some t =>
      .ok { name := t.name, description := t.description,
            creation_time := t.creation_time, admin := t.admin }

/-- The team object of an update_team request; the documented fields are
name, description and admin, each optional. -/
structure TeamUpdate where
  name : Option String
  description : Option String
  admin : Option String
deriving Repr, DecidableEq

/-- Python dict.update of a stored team record with the request's team
object. -/
def applyTeamUpdate (t : TeamRec) (d : TeamUpdate) : TeamRec :=
  { t with
    name := d.name.getD t.name,
    description := d.description.getD t.description,
    admin := d.admin.getD t.admin }

/-- TeamManager.update_team: requires a non-empty id, length-checks present
fields, requires the team to exist, and when the request carries a name, it
rejects the new name if any stored record other than (by value comparison)
the target's own record already bears it; then dict-updates the record. -/
def update_team (teams : TeamState) (team_id : String) (d : TeamUpdate) :
    Except String (String × TeamState) :=
  if team_id = "" then .error "Team ID is required"
  else if d.name.any (fun n => n.length > 64) then
    .error "Name must be 64 characters or less"
  else if d.description.any (fun n => n.length > 128) then
    .error "Description must be 128 characters or less"
  else
    match dictGet team_id teams with
    | none => .error "Team not found"
    | some t =>
      if d.name.any (fun nn => teams.any (fun p => p.2 != t && p.2.name == nn)) then
        .error "Team name must be unique"
      else .ok (team_id, dictSet team_id (applyTeamUpdate t d) teams)

/-- TeamManager.add_users_to_team: requires a non-empty id, rejects a request
list longer than 50, requires the team to exist, and replaces the member
list by list(set(existing + users)). The Python set collapses duplicates
with unspecified ordering; it is modelled by List.dedup of the
concatenation, which has the same members and the same cardinality. -/
def add_users_to_team (teams : TeamState) (team_id : String) (new_users : List String) :
    Except String (String × TeamState) :=
  if team_id = "" then .error "Team ID is required"
  else if new_users.length > 50 then .error "Cannot add more than 50 users to a team"
  else
    match dictGet team_id teams with
    | none => .error "Team not found"
    | some t =>
      .ok (team_id, dictSet team_id { t with users := (t.users ++ new_users).dedup } teams)

/-- TeamManager.remove_users_from_team: requires a non-empty id and an
existing team, then filters out the listed members (non-members tolerated). -/
def remove_users_from_team (teams : TeamState) (team_id : String) (rem : List String) :
    Except String (String × TeamState) :=
  if team_id = "" then .error "Team ID is required"
  else
    match dictGet team_id teams with
    | none => .error "Team not found"
    | some t =>
      .ok (team_id, dictSet team_id { t with users := t.users.filter (fun u => !(rem.contains u)) } teams)

/-- One entry of a list_team_users response. -/
structure TeamUserOut where
  id : String
  name : String
  display_name : String
deriving Repr, DecidableEq

/-- The per-member resolution step of TeamManager.list_team_users. The source
invokes UserManager.describe_user directly on the class, passing the
serialized request as the self argument and no request argument, so Python
raises TypeError before any user lookup happens: resolving a member never
succeeds. (Were the call bound, it would still fail: describe_user returns
an object with keys status and user_data, while the caller reads name at the
top level.) -/
def resolveMember (_user_id : String) : Except String UserOut :=
  .error "TypeError: describe_user missing 1 required positional argument: request"

/-- TeamManager.list_team_users: requires a non-empty id and an existing
team, then resolves every member via the (broken) describe_user call,
aborting the whole call at the first member that fails to resolve. -/
def list_team_users (teams : TeamState) (team_id : String) :
    Except String (List TeamUserOut) :=
  if team_id = "" then .error "Team ID is required"
  else
    match dictGet team_id teams with
    | none => .error "Team not found"
    | some t =>
      t.users.mapM (fun uid => do
        let u ← resolveMember uid
        pure { id := uid, name := u.name, display_name := u.display_name })

/-! ## Board store (src/project_board_base.py, class ProjectBoardManager) -/

/-- A task record nested under a board. -/
structure TaskRec where
  title : String
  description : String
  user_id : String
  status : String
  creation_time : String
deriving Repr, DecidableEq

/-- A record of db/boards.json; end_time models the optional JSON key that
only close_board writes. -/
structure BoardRec where
  name : String
  description : String
  team_id : String
  status : String
  creation_time : String
  end_time : Option String
  tasks : List (String × TaskRec)
deriving Repr, DecidableEq

abbrev BoardState := List (String × BoardRec)

/-- ProjectBoardManager.create_board: requires non-empty name, description
and team_id, length-checks them, rejects a name already used by a board of
the same team, assigns id str(len(boards)+1) and stores an OPEN board with
no tasks and no end_time key. -/
def create_board (now : String) (boards : BoardState) (name description team_id : String) :
    Except String (String × BoardState) :=
  if name = "" ∨ description = "" ∨ team_id = "" then
    .error "Name, description, and team ID are required"
  else if name.length > 64 then .error "Name must be 64 characters or less"
  else if description.length > 128 then .error "Description must be 128 characters or less"
  else if boards.any (fun p => p.2.name == name && p.2.team_id == team_id) then
    .error "Board name must be unique for the team, Board name already exists"
  else
    let board_id := toString (boards.length + 1)
    .ok (board_id,
      dictSet board_id
        { name := name, description := description, team_id := team_id,
          status := "OPEN", creation_time := now, end_time := none, tasks := [] }
        boards)

/-- ProjectBoardManager.close_board: requires a non-empty id and an existing
board, fails if any task's status differs from COMPLETE, otherwise sets
status CLOSED and (over)writes end_time with the current time. The board's
current status is never examined. -/
def close_board (now : String) (boards : BoardState) (board_id : String) :
    Except String (String × BoardState) :=
  if board_id = "" then .error "Board ID is required"
  else
    match dictGet board_id boards with
    | none => .error "Board not found"
    | some b =>
      if b.tasks.any (fun p => p.2.status != "COMPLETE") then
        .error "Cannot close board with incomplete tasks"
      else
        .ok (board_id, dictSet board_id { b with status := "CLOSED", end_time := some now } boards)

/-- ProjectBoardManager.add_task: requires non-empty title, description,
user_id and board_id, length-checks title and description, requires the
board to exist and to have status OPEN, rejects a duplicate title on that
board, assigns task id str(len(tasks)+1) and stores the task with status
OPEN. -/
def add_task (now : String) (boards : BoardState) (title description user_id board_id : String) :
    Except String (String × BoardState) :=
  if title = "" ∨ description = "" ∨ user_id = "" ∨ board_id = "" then
    .error "Title, description, user ID, and board ID are required"
  else if title.length > 64 then .error "Title must be 64 characters or less"
  else if description.length > 128 then .error "Description must be 128 characters or less"
  else
    match dictGet board_id boards with
    | none => .error "Board not found"
    | some b =>
      if b.status != "OPEN" then .error "Cannot add task to a closed board"
      else if b.tasks.any (fun p => p.2.title == title) then
        .error "Task title must be unique for the board"
      else
        let task_id := toString (b.tasks.length + 1)
        .ok (task_id,
          dictSet board_id
            { b with
              tasks := dictSet task_id
                { title := title, description := description, user_id := user_id,
                  status := "OPEN", creation_time := now }
                b.tasks }
            boards)

/-- Sets the status of the task stored at the given key of a board's task
object (the key is unique in a dict; the first entry is the one the dict
read denotes). -/
def setTaskStatus (task_id status : String) : List (String × TaskRec) → List (String × TaskRec)
  | [] => []
  | (k, t) :: rest =>
    if k = task_id then (k, { t with status := status }) :: rest
    else (k, t) :: setTaskStatus task_id status rest

/-- The scan of ProjectBoardManager.update_task_status: walks the boards in
collection order, and in the first board whose task object contains the
task id, sets that task's status and stops; none models falling through to
the Task-not-found error. -/
def updateFirstBoard (task_id status : String) : BoardState → Option BoardState
  | [] => none
  | (k, b) :: rest =>
    if dictMem task_id b.tasks then
      some ((k, { b with tasks := setTaskStatus task_id status b.tasks }) :: rest)
    else
      match updateFirstBoard task_id status rest with
      | none => none
      | some rest₂ => some ((k, b) :: rest₂)

/-- ProjectBoardManager.update_task_status: requires non-empty id and status,
requires the status to be one of OPEN, IN_PROGRESS, COMPLETE, then updates
the first board (in collection order) containing the task id; fails when no
board contains it. The containing board's own status is never examined. -/
def update_task_status (boards : BoardState) (task_id status : String) :
    Except String (String × BoardState) :=
  if task_id = "" ∨ status = "" then .error "Task ID and status are required"
  else if ¬ (status = "OPEN" ∨ status = "IN_PROGRESS" ∨ status = "COMPLETE") then
    .error "Invalid status value"
  else
    match updateFirstBoard task_id status boards with
    | none => .error "Task not found"
    | some boards₂ => .ok (task_id, boards₂)

/-- One entry of a list_boards response. -/
structure BoardOut where
  id : String
  name : String
deriving Repr, DecidableEq

/-- ProjectBoardManager.list_boards: requires a non-empty team id and
projects the boards of that team whose status is OPEN, in collection
order. -/
def list_boards (boards : BoardState) (team_id : String) : Except String (List BoardOut) :=
  if team_id = "" then .error "Team ID is required"
  else
    .ok (boards.filterMap (fun p =>
      if p.2.team_id = team_id ∧ p.2.status = "OPEN" then
        some { id := p.1, name := p.2.name }
      else none))

/-! ## General lemmas about the embedding -/

theorem commit_eq_of_isErr (s : σ) (r : Except String (String × σ)) (h : isErr r = true) :
    commit s r = s := by
  cases r with
  | error e => rfl
  | ok v => simp [isErr] at h

theorem dictGet_dictSet_self (k : String) (v : α) (m : List (String × α)) :
    dictGet k (dictSet k v m) = some v := by
  induction m with
  | nil => simp [dictSet, dictGet]
  | cons p rest ih =>
    obtain ⟨k₂, w⟩ := p
    by_cases h : k₂ = k
    · simp [dictSet, h, dictGet]
    · simp [dictSet, h, dictGet, ih]

theorem dictGet_dictSet_ne (k k₂ : String) (v : α) (m : List (String × α)) (h : k₂ ≠ k) :
    dictGet k₂ (dictSet k v m) = dictGet k₂ m := by
  induction m with
  | nil => simp [dictSet, dictGet, if_neg (Ne.symm h)]
  | cons p rest ih =>
    obtain ⟨k₃, w⟩ := p
    by_cases h₃ : k₃ = k
    · subst h₃
      simp [dictSet, dictGet, if_neg (Ne.symm h)]
    · simp [dictSet, h₃, dictGet, ih]

theorem mem_dictSet (k : String) (v : α) (m : List (String × α)) (q : String × α)
    (h : q ∈ dictSet k v m) : q ∈ m ∨ q = (k, v) := by
  induction m with
  | nil =>
    simp [dictSet] at h
    exact Or.inr h
  | cons p rest ih =>
    obtain ⟨k₂, w⟩ := p
    by_cases h₂ : k₂ = k
    · simp [dictSet, h₂] at h
      rcases h with h | h
      · exact Or.inr (by simp [h])
      · exact Or.inl (List.mem_cons_of_mem _ h)
    · simp [dictSet, h₂] at h
      rcases h with h | h
      · exact Or.inl (by simp [h])
      · rcases ih h with h₃ | h₃
        · exact Or.inl (List.mem_cons_of_mem _ h₃)
        · exact Or.inr h₃

theorem dictGet_mem (k : String) (v : α) (m : List (String × α))
    (h : dictGet k m = some v) : (k, v) ∈ m := by
  induction m with
  | nil => simp [dictGet] at h
  | cons p rest ih =>
    obtain ⟨k₂, w⟩ := p
    by_cases h₂ : k₂ = k
    · subst h₂
      simp [dictGet] at h
      simp [h]
    · simp [dictGet, h₂] at h
      exact List.mem_cons_of_mem _ (ih h)

/-- Global name uniqueness for a collection: the names of distinct entries
differ pairwise. -/
def NamesUnique (f : α → String) (m : List (String × α)) : Prop :=
  List.Pairwise (fun p q => f p.2 ≠ f q.2) m

/-! ## Concrete states used by the claim theorems -/

/-- The record create_user stores for the request name alice, display_name
Alice A at time t0: note the absent id key. -/
def c1User : UserRec :=
  { name := "alice", display_name := "Alice A", creation_time := "t0", id := none }

/-- The single task of the C2 run, at the given status. -/
def c2Task (st : String) : TaskRec :=
  { title := "T", description := "d", user_id := "1", status := st, creation_time := "t2" }

/-- The single board of the C2 run: board status, task status, end_time. -/
def c2Board (bst tst : String) (et : Option String) : BoardRec :=
  { name := "B", description := "d", team_id := "1", status := bst,
    creation_time := "t1", end_time := et, tasks := [("1", c2Task tst)] }

/-- The C2 board as freshly created, before its task is added. -/
def c2Board0 : BoardRec :=
  { name := "B", description := "d", team_id := "1", status := "OPEN",
    creation_time := "t1", end_time := none, tasks := [] }

/-- The C3 team, with one member. -/
def c3Team : TeamRec :=
  { name := "teamA", description := "d", admin := "1", creation_time := "t1", users := ["1"] }

def c4Alice : UserRec := { name := "alice", display_name := "A", creation_time := "t0", id := none }

def c4Bob : UserRec := { name := "bob", display_name := "B", creation_time := "t1", id := none }

/-- C1: a valid create_user on the empty collection succeeds and returns the
fresh id 1, but the created record is not retrievable: both describe_user of
that id and list_users raise KeyError on the id key, which create_user never
stored. The claim's retrievability part fails on the code. -/
theorem C1_user_created_record_not_retrievable :
    create_user "t0" [] "alice" "Alice A" = .ok ("1", [("1", c1User)])
    ∧ describe_user [("1", c1User)] "1" = .error "KeyError: id"
    ∧ list_users [("1", c1User)] = .error "KeyError: id" :=
  ⟨rfl, rfl, rfl⟩

/-- C2 counterexample: a reachable run refuting permanence. Board 1 is
created, gets task 1, the task is completed, the board is closed (status
CLOSED, all tasks COMPLETE) — and then update_task_status on the closed
board still succeeds and sets the task back to OPEN, leaving a CLOSED board
with a non-COMPLETE task. -/
theorem C2_counterexample :
    create_board "t1" [] "B" "d" "1" = .ok ("1", [("1", c2Board0)])
    ∧ add_task "t2" [("1", c2Board0)] "T" "d" "1" "1"
        = .ok ("1", [("1", c2Board "OPEN" "OPEN" none)])
    ∧ update_task_status [("1", c2Board "OPEN" "OPEN" none)] "1" "COMPLETE"
        = .ok ("1", [("1", c2Board "OPEN" "COMPLETE" none)])
    ∧ close_board "t3" [("1", c2Board "OPEN" "COMPLETE" none)] "1"
        = .ok ("1", [("1", c2Board "CLOSED" "COMPLETE" (some "t3"))])
    ∧ update_task_status [("1", c2Board "CLOSED" "COMPLETE" (some "t3"))] "1" "OPEN"
        = .ok ("1", [("1", c2Board "CLOSED" "OPEN" (some "t3"))])
    ∧ (c2Board "CLOSED" "OPEN" (some "t3")).status = "CLOSED"
    ∧ (c2Task "OPEN").status ≠ "COMPLETE" :=
  ⟨rfl, rfl, rfl, rfl, rfl, rfl, by decide⟩

/-- C3: a reachable team with one member (created, then the member added).
list_team_users fails for it — the per-member resolution raises TypeError
for every member, because the source calls UserManager.describe_user
unbound — while a team with no members yields the empty list. The claim's
description of the success path fails on the code for every non-empty
member set. -/
theorem C3_list_team_users_fails_for_any_member :
    create_team "t1" [] "teamA" "d" "1" = .ok ("1", [("1", { c3Team with users := [] })])
    ∧ add_users_to_team [("1", { c3Team with users := [] })] "1" ["1"]
        = .ok ("1", [("1", c3Team)])
    ∧ list_team_users [("1", c3Team)] "1"
        = .error "TypeError: describe_user missing 1 required positional argument: request"
    ∧ list_team_users [("1", { c3Team with users := [] })] "1" = .ok [] :=
  ⟨rfl, rfl, rfl, rfl⟩

/-- C4 counterexample: two users are created with distinct names, then
update_user renames the second to the first one's name. The call succeeds —
update_user performs no uniqueness check — and afterwards user names are no
longer globally unique. -/
theorem C4_counterexample :
    create_user "t0" [] "alice" "A" = .ok ("1", [("1", c4Alice)])
    ∧ create_user "t1" [("1", c4Alice)] "bob" "B"
        = .ok ("2", [("1", c4Alice), ("2", c4Bob)])
    ∧ update_user [("1", c4Alice), ("2", c4Bob)] "2"
        { name := some "alice", display_name := none }
        = .ok ("2", [("1", c4Alice), ("2", { c4Bob with name := "alice" })])
    ∧ ¬ NamesUnique UserRec.name [("1", c4Alice), ("2", { c4Bob with name := "alice" })] := by
  refine ⟨rfl, rfl, rfl, ?_⟩
  intro h
  have := List.rel_of_pairwise_cons h (List.mem_singleton_self _)
  simp [c4Alice, c4Bob] at this

/-! ## close_board success characterization -/

/-- close_board succeeds on any existing board all of whose tasks are
COMPLETE, whatever its current status, setting status CLOSED and writing
end_time. -/
theorem close_board_ok (now : String) (boards : BoardState) (bid : String) (b : BoardRec)
    (hbid : bid ≠ "") (hget : dictGet bid boards = some b)
    (hall : ∀ p ∈ b.tasks, p.2.status = "COMPLETE") :
    close_board now boards bid
      = .ok (bid, dictSet bid { b with status := "CLOSED", end_time := some now } boards) := by
  have hany : b.tasks.any (fun p => p.2.status != "COMPLETE") = false := by
    rw [List.any_eq_false]
    intro p hp
    simp [hall p hp]
  simp [close_board, hbid, hget, hany]

/-- C6: close_board on an existing board with no tasks succeeds, setting
status CLOSED and recording end_time; on a board with a task whose status is
not COMPLETE it fails and the stored collection is unchanged (in particular
the board's status stays as it was, OPEN when it was OPEN). -/
theorem C6_close_board_zero_tasks_or_incomplete (now : String) (boards : BoardState)
    (bid : String) (b : BoardRec) (hbid : bid ≠ "") (hget : dictGet bid boards = some b) :
    (b.tasks = [] →
      close_board now boards bid
        = .ok (bid, dictSet bid { b with status := "CLOSED", end_time := some now } boards))
    ∧ ((∃ p ∈ b.tasks, p.2.status ≠ "COMPLETE") →
      isErr (close_board now boards bid) = true
      ∧ commit boards (close_board now boards bid) = boards) := by
  constructor
  · intro hempty
    exact close_board_ok now boards bid b hbid hget (by simp [hempty])
  · intro hbad
    have hany : b.tasks.any (fun p => p.2.status != "COMPLETE") = true := by
      rw [List.any_eq_true]
      obtain ⟨p, hp, hne⟩ := hbad
      exact ⟨p, hp, by simp [hne]⟩
    have herr : isErr (close_board now boards bid) = true := by
      simp [close_board, hbid, hget, hany, isErr]
    exact ⟨herr, commit_eq_of_isErr boards _ herr⟩

/-- C10: close_board never examines the board's current status: any existing
board whose tasks are all COMPLETE can be closed again, and each successful
call overwrites end_time with the time of that call. -/
theorem C10_close_board_ignores_current_status (now : String) (boards : BoardState)
    (bid : String) (b : BoardRec) (hbid : bid ≠ "") (hget : dictGet bid boards = some b)
    (hall : ∀ p ∈ b.tasks, p.2.status = "COMPLETE") :
    ∃ s₂, close_board now boards bid = .ok (bid, s₂)
      ∧ dictGet bid s₂ = some { b with status := "CLOSED", end_time := some now } :=
  ⟨dictSet bid { b with status := "CLOSED", end_time := some now } boards,
    close_board_ok now boards bid b hbid hget hall,
    dictGet_dictSet_self bid _ boards⟩

/-- C5: a create request whose name collides with an existing record of the
same collection (for boards: same name under the same team) fails, and the
stored collection is unchanged. -/
theorem C5_duplicate_create_fails (now : String)
    (users : UserState) (uname udn : String)
    (teams : TeamState) (tname tdesc tadmin : String)
    (boards : BoardState) (bname bdesc bteam : String)
    (hu : ∃ p ∈ users, p.2.name = uname)
    (ht : ∃ p ∈ teams, p.2.name = tname)
    (hb : ∃ p ∈ boards, p.2.name = bname ∧ p.2.team_id = bteam) :
    (isErr (create_user now users uname udn) = true
      ∧ commit users (create_user now users uname udn) = users)
    ∧ (isErr (create_team now teams tname tdesc tadmin) = true
      ∧ commit teams (create_team now teams tname tdesc tadmin) = teams)
    ∧ (isErr (create_board now boards bname bdesc bteam) = true
      ∧ commit boards (create_board now boards bname bdesc bteam) = boards) := by
  have hu2 : isErr (create_user now users uname udn) = true := by
    unfold create_user
    split
    · rfl
    · split
      · rfl
      · split
        · rfl
        · rename_i h₃
          exfalso
          obtain ⟨p, hp, hpn⟩ := hu
          exact h₃ (List.any_eq_true.mpr ⟨p, hp, by simp [hpn]⟩)
  have ht2 : isErr (create_team now teams tname tdesc tadmin) = true := by
    unfold create_team
    split
    · rfl
    · split
      · rfl
      · split
        · rfl
        · split
          · rfl
          · rename_i h₄
            exfalso
            obtain ⟨p, hp, hpn⟩ := ht
            exact h₄ (List.any_eq_true.mpr ⟨p, hp, by simp [hpn]⟩)
  have hb2 : isErr (create_board now boards bname bdesc bteam) = true := by
    unfold create_board
    split
    · rfl
    · split
      · rfl
      · split
        · rfl
        · split
          · rfl
          · rename_i h₄
            exfalso
            obtain ⟨p, hp, hpn⟩ := hb
            exact h₄ (List.any_eq_true.mpr ⟨p, hp, by simp [hpn.1, hpn.2]⟩)
  exact ⟨⟨hu2, commit_eq_of_isErr users _ hu2⟩,
    ⟨ht2, commit_eq_of_isErr teams _ ht2⟩,
    ⟨hb2, commit_eq_of_isErr boards _ hb2⟩⟩

/-- C7: add_task fails (collection unchanged) when the target board's status
is not OPEN, and fails when the title duplicates an existing task title on
that board; when it succeeds, the returned task id maps to a new task with
status OPEN on the target board and every task with a different id is
unchanged. -/
theorem C7_add_task (now : String) (boards : BoardState)
    (title description user_id bid : String) (b : BoardRec)
    (hget : dictGet bid boards = some b) :
    (b.status ≠ "OPEN" →
      isErr (add_task now boards title description user_id bid) = true
      ∧ commit boards (add_task now boards title description user_id bid) = boards)
    ∧ ((∃ p ∈ b.tasks, p.2.title = title) →
      isErr (add_task now boards title description user_id bid) = true
      ∧ commit boards (add_task now boards title description user_id bid) = boards)
    ∧ (∀ tid s₂, add_task now boards title description user_id bid = .ok (tid, s₂) →
      ∃ b₂, dictGet bid s₂ = some b₂
        ∧ b₂.status = b.status
        ∧ dictGet tid b₂.tasks = some
            { title := title, description := description, user_id := user_id,
              status := "OPEN", creation_time := now }
        ∧ ∀ k, k ≠ tid → dictGet k b₂.tasks = dictGet k b.tasks) := by
  refine ⟨?_, ?_, ?_⟩
  · intro hst
    have herr : isErr (add_task now boards title description user_id bid) = true := by
      unfold add_task
      split
      · rfl
      · split
        · rfl
        · split
          · rfl
          · rw [hget]
            simp only []
            rw [if_pos (by simp [hst])]
            rfl
    exact ⟨herr, commit_eq_of_isErr boards _ herr⟩
  · intro hdup
    have herr : isErr (add_task now boards title description user_id bid) = true := by
      unfold add_task
      split
      · rfl
      · split
        · rfl
        · split
          · rfl
          · rw [hget]
            simp only []
            split
            · rfl
            · rw [if_pos ?hdup]
              · rfl
              case hdup =>
                obtain ⟨p, hp, hpt⟩ := hdup
                exact List.any_eq_true.mpr ⟨p, hp, by simp [hpt]⟩
    exact ⟨herr, commit_eq_of_isErr boards _ herr⟩
  · intro tid s₂ h
    unfold add_task at h
    split at h
    · exact absurd h (by simp)
    · split at h
      · exact absurd h (by simp)
      · split at h
        · exact absurd h (by simp)
        · rw [hget] at h
          simp only [] at h
          split at h
          · exact absurd h (by simp)
          · split at h
            · exact absurd h (by simp)
            · rw [Except.ok.injEq, Prod.mk.injEq] at h
              obtain ⟨htid, hs⟩ := h
              subst htid
              subst hs
              refine ⟨{ b with
                  tasks := dictSet (toString (b.tasks.length + 1))
                    { title := title, description := description, user_id := user_id,
                      status := "OPEN", creation_time := now } b.tasks },
                dictGet_dictSet_self _ _ _, rfl, dictGet_dictSet_self _ _ _, ?_⟩
              intro k hk
              exact dictGet_dictSet_ne _ k _ b.tasks hk

/-- The scan of update_task_status falls through to the not-found error when
no board's task object contains the task id. -/
theorem updateFirstBoard_eq_none (task_id status : String) (boards : BoardState)
    (h : ∀ p ∈ boards, dictGet task_id p.2.tasks = none) :
    updateFirstBoard task_id status boards = none := by
  induction boards with
  | nil => rfl
  | cons p rest ih =>
    obtain ⟨k, b⟩ := p
    have hb : dictGet task_id b.tasks = none := h (k, b) (List.mem_cons_self _ _)
    have hmem : dictMem task_id b.tasks = false := by simp [dictMem, hb]
    simp [updateFirstBoard, hmem, ih (fun q hq => h q (List.mem_cons_of_mem _ hq))]

/-- The scan of update_task_status stops at the first board (in collection
order) whose task object contains the task id, modifies only that board, and
leaves every board before and after it untouched. -/
theorem updateFirstBoard_first_match (task_id status : String) (pre post : BoardState)
    (k : String) (b : BoardRec)
    (hpre : ∀ p ∈ pre, dictGet task_id p.2.tasks = none)
    (hb : (dictGet task_id b.tasks).isSome = true) :
    updateFirstBoard task_id status (pre ++ (k, b) :: post)
      = some (pre ++ (k, { b with tasks := setTaskStatus task_id status b.tasks }) :: post) := by
  induction pre with
  | nil => simp [updateFirstBoard, dictMem, hb]
  | cons p rest ih =>
    obtain ⟨k₂, b₂⟩ := p
    have h₂ : dictGet task_id b₂.tasks = none := hpre (k₂, b₂) (List.mem_cons_self _ _)
    have hmem : dictMem task_id b₂.tasks = false := by simp [dictMem, h₂]
    simp [updateFirstBoard, hmem, ih (fun q hq => hpre q (List.mem_cons_of_mem _ hq))]

/-- C8: update_task_status fails when the status is not one of OPEN,
IN_PROGRESS, COMPLETE, and fails (collection unchanged) when no board's task
object contains the task id; with a valid status it resolves the task id by
scanning the boards in collection order: the first board containing it has
that task's status set, and no other board — before or after, even one
containing the same task id — is modified. -/
theorem C8_update_task_status (boards : BoardState) (tid st : String) :
    (st ∉ (["OPEN", "IN_PROGRESS", "COMPLETE"] : List String) →
      isErr (update_task_status boards tid st) = true)
    ∧ ((∀ p ∈ boards, dictGet tid p.2.tasks = none) →
      isErr (update_task_status boards tid st) = true
      ∧ commit boards (update_task_status boards tid st) = boards)
    ∧ (∀ pre k b post, tid ≠ "" →
      (st = "OPEN" ∨ st = "IN_PROGRESS" ∨ st = "COMPLETE") →
      boards = pre ++ (k, b) :: post →
      (∀ p ∈ pre, dictGet tid p.2.tasks = none) →
      (dictGet tid b.tasks).isSome = true →
      update_task_status boards tid st
        = .ok (tid, pre ++ (k, { b with tasks := setTaskStatus tid st b.tasks }) :: post)) := by
  refine ⟨?_, ?_, ?_⟩
  · intro hst
    unfold update_task_status
    split
    · rfl
    · rw [if_pos (by simpa using hst)]
      rfl
  · intro hnone
    have herr : isErr (update_task_status boards tid st) = true := by
      unfold update_task_status
      split
      · rfl
      · split
        · rfl
        · rw [updateFirstBoard_eq_none tid st boards hnone]
          rfl
    exact ⟨herr, commit_eq_of_isErr boards _ herr⟩
  · intro pre k b post htid hvalid hsplit hpre hb
    have hst : st ≠ "" := by
      rcases hvalid with h | h | h <;> simp [h]
    subst hsplit
    unfold update_task_status
    rw [if_neg (by rintro (h | h); exact htid h; exact hst h)]
    rw [if_neg (not_not_intro hvalid)]
    rw [updateFirstBoard_first_match tid st pre post k b hpre hb]

/-- C9: add_users_to_team rejects a request list of more than 50 entries
with the team unchanged; with at most 50 entries it succeeds and replaces
the member list by a duplicate-free list whose members are exactly the union
of the existing members and the request list (so overlapping additions
collapse and the size is the union's cardinality, not the sum of the list
lengths). -/
theorem C9_add_users_to_team (teams : TeamState) (tid : String) (req : List String)
    (t : TeamRec) :
    (req.length > 50 →
      isErr (add_users_to_team teams tid req) = true
      ∧ commit teams (add_users_to_team teams tid req) = teams)
    ∧ (req.length ≤ 50 → tid ≠ "" → dictGet tid teams = some t →
      add_users_to_team teams tid req
        = .ok (tid, dictSet tid { t with users := (t.users ++ req).dedup } teams)
      ∧ (t.users ++ req).dedup.Nodup
      ∧ ∀ x, x ∈ (t.users ++ req).dedup ↔ (x ∈ t.users ∨ x ∈ req)) := by
  constructor
  · intro hlen
    have herr : isErr (add_users_to_team teams tid req) = true := by
      unfold add_users_to_team
      by_cases h : tid = "" <;> simp [h, hlen, isErr]
    exact ⟨herr, commit_eq_of_isErr teams _ herr⟩
  · intro hlen htid hget
    refine ⟨?_, List.nodup_dedup _, ?_⟩
    · unfold add_users_to_team
      rw [if_neg htid, if_neg (by omega), hget]
    · intro x
      simp [List.mem_dedup, List.mem_append]

/-- C2 (amended): whenever close_board succeeds, the board it closed has
status CLOSED and, at that moment, every one of its tasks is COMPLETE. (The
permanence the claim adds on top of this fails: see the counterexample.) -/
theorem C2_close_board_establishes_completeness (now : String) (boards s₂ : BoardState)
    (bid rid : String) (h : close_board now boards bid = .ok (rid, s₂)) :
    ∃ b, dictGet bid s₂ = some b ∧ b.status = "CLOSED"
      ∧ ∀ p ∈ b.tasks, p.2.status = "COMPLETE" := by
  unfold close_board at h
  split at h
  · exact absurd h (by simp)
  · split at h
    · exact absurd h (by simp)
    · rename_i b₀ hget
      split at h
      · exact absurd h (by simp)
      · rename_i hany
        rw [Except.ok.injEq, Prod.mk.injEq] at h
        obtain ⟨-, hs⟩ := h
        subst hs
        refine ⟨_, dictGet_dictSet_self _ _ _, rfl, ?_⟩
        intro p hp
        simp only [Bool.not_eq_true] at hany
        rw [List.any_eq_false] at hany
        have := hany p hp
        simpa using this

/-- Replacing the record at a key by one that carries no name already in the
collection preserves pairwise-distinct names. -/
theorem namesUnique_dictSet_fresh (f : α → String) (m : List (String × α)) (k : String)
    (v : α) (hfresh : ∀ q ∈ m, f q.2 ≠ f v) (h : NamesUnique f m) :
    NamesUnique f (dictSet k v m) := by
  induction m with
  | nil => simp [dictSet, NamesUnique]
  | cons p rest ih =>
    obtain ⟨k₂, w⟩ := p
    simp only [NamesUnique, List.pairwise_cons] at h
    obtain ⟨hhead, htail⟩ := h
    by_cases hk : k₂ = k
    · simp only [dictSet]
      rw [if_pos hk]
      simp only [NamesUnique, List.pairwise_cons]
      refine ⟨?_, htail⟩
      intro q hq
      exact (hfresh q (List.mem_cons_of_mem _ hq)).symm
    · simp only [dictSet]
      rw [if_neg hk]
      simp only [NamesUnique, List.pairwise_cons]
      constructor
      · intro q hq
        rcases mem_dictSet k v rest q hq with hq₂ | hq₂
        · exact hhead q hq₂
        · subst hq₂
          exact hfresh (k₂, w) (List.mem_cons_self _ _)
      · exact ih (fun q hq => hfresh q (List.mem_cons_of_mem _ hq)) htail

/-- Replacing the record at an existing key by one with the same name
preserves pairwise-distinct names. -/
theorem namesUnique_dictSet_same (f : α → String) (m : List (String × α)) (k : String)
    (t v : α) (hget : dictGet k m = some t) (hname : f v = f t) (h : NamesUnique f m) :
    NamesUnique f (dictSet k v m) := by
  induction m with
  | nil => simp [dictGet] at hget
  | cons p rest ih =>
    obtain ⟨k₂, w⟩ := p
    simp only [NamesUnique, List.pairwise_cons] at h
    obtain ⟨hhead, htail⟩ := h
    by_cases hk : k₂ = k
    · simp only [dictGet] at hget
      rw [if_pos hk] at hget
      injection hget with hwt
      subst hwt
      simp only [dictSet]
      rw [if_pos hk]
      simp only [NamesUnique, List.pairwise_cons]
      refine ⟨?_, htail⟩
      intro q hq
      rw [hname]
      exact hhead q hq
    · simp only [dictGet] at hget
      rw [if_neg hk] at hget
      simp only [dictSet]
      rw [if_neg hk]
      simp only [NamesUnique, List.pairwise_cons]
      constructor
      · intro q hq
        rcases mem_dictSet k v rest q hq with hq₂ | hq₂
        · exact hhead q hq₂
        · subst hq₂
          show f w ≠ f v
          rw [hname]
          exact hhead (k, t) (dictGet_mem k t rest hget)
      · exact ih hget htail

/-- Replacing the record at an existing key k (holding t) by a record v
preserves pairwise-distinct names, provided every record of the collection
already carrying v's name is t itself (the check update_team performs). -/
theorem namesUnique_dictSet_unique_holder (f : α → String) (m : List (String × α))
    (k : String) (t v : α) (hget : dictGet k m = some t)
    (hstar : ∀ q ∈ m, f q.2 = f v → q.2 = t) (h : NamesUnique f m) :
    NamesUnique f (dictSet k v m) := by
  induction m with
  | nil => simp [dictGet] at hget
  | cons p rest ih =>
    obtain ⟨k₂, w⟩ := p
    simp only [NamesUnique, List.pairwise_cons] at h
    obtain ⟨hhead, htail⟩ := h
    by_cases hk : k₂ = k
    · simp only [dictGet] at hget
      rw [if_pos hk] at hget
      injection hget with hwt
      subst hwt
      simp only [dictSet]
      rw [if_pos hk]
      simp only [NamesUnique, List.pairwise_cons]
      refine ⟨?_, htail⟩
      intro q hq heq
      have hqt : q.2 = w := hstar q (List.mem_cons_of_mem _ hq) heq.symm
      exact hhead q hq (by rw [hqt])
    · simp only [dictGet] at hget
      rw [if_neg hk] at hget
      simp only [dictSet]
      rw [if_neg hk]
      simp only [NamesUnique, List.pairwise_cons]
      constructor
      · intro q hq
        rcases mem_dictSet k v rest q hq with hq₂ | hq₂
        · exact hhead q hq₂
        · subst hq₂
          intro heq
          have hwt : w = t := hstar (k₂, w) (List.mem_cons_self _ _) heq
          exact hhead (k, t) (dictGet_mem k t rest hget) (by rw [hwt])
      · exact ih hget (fun q hq => hstar q (List.mem_cons_of_mem _ hq)) htail

/-- C4 (amended): name uniqueness is preserved by create_user, by
create_team, by update_team (which re-checks the new name against every
other record), and by the membership operations (which never touch names) —
but not by update_user, which performs no uniqueness check (see the
counterexample). -/
theorem C4_amended_uniqueness_preservation :
    (∀ now users name dn rid s₂, NamesUnique UserRec.name users →
      create_user now users name dn = .ok (rid, s₂) → NamesUnique UserRec.name s₂)
    ∧ (∀ now teams name desc admin rid s₂, NamesUnique TeamRec.name teams →
      create_team now teams name desc admin = .ok (rid, s₂) → NamesUnique TeamRec.name s₂)
    ∧ (∀ teams tid d rid s₂, NamesUnique TeamRec.name teams →
      update_team teams tid d = .ok (rid, s₂) → NamesUnique TeamRec.name s₂)
    ∧ (∀ teams tid req rid s₂, NamesUnique TeamRec.name teams →
      add_users_to_team teams tid req = .ok (rid, s₂) → NamesUnique TeamRec.name s₂)
    ∧ (∀ teams tid req rid s₂, NamesUnique TeamRec.name teams →
      remove_users_from_team teams tid req = .ok (rid, s₂) → NamesUnique TeamRec.name s₂) := by
  refine ⟨?_, ?_, ?_, ?_, ?_⟩
  · intro now users name dn rid s₂ hu h
    unfold create_user at h
    split at h
    · exact absurd h (by simp)
    · split at h
      · exact absurd h (by simp)
      · split at h
        · exact absurd h (by simp)
        · rename_i hany
          rw [Except.ok.injEq, Prod.mk.injEq] at h
          obtain ⟨-, hs⟩ := h
          subst hs
          refine namesUnique_dictSet_fresh _ _ _ _ ?_ hu
          intro q hq heq
          exact hany (List.any_eq_true.mpr ⟨q, hq, by simp [heq]⟩)
  · intro now teams name desc admin rid s₂ hu h
    unfold create_team at h
    split at h
    · exact absurd h (by simp)
    · split at h
      · exact absurd h (by simp)
      · split at h
        · exact absurd h (by simp)
        · split at h
          · exact absurd h (by simp)
          · rename_i hany
            rw [Except.ok.injEq, Prod.mk.injEq] at h
            obtain ⟨-, hs⟩ := h
            subst hs
            refine namesUnique_dictSet_fresh _ _ _ _ ?_ hu
            intro q hq heq
            exact hany (List.any_eq_true.mpr ⟨q, hq, by simp [heq]⟩)
  · intro teams tid d rid s₂ hu h
    unfold update_team at h
    split at h
    · exact absurd h (by simp)
    · split at h
      · exact absurd h (by simp)
      · split at h
        · exact absurd h (by simp)
        · split at h
          · exact absurd h (by simp)
          · rename_i t hget
            split at h
            · exact absurd h (by simp)
            · rename_i hcheck
              rw [Except.ok.injEq, Prod.mk.injEq] at h
              obtain ⟨-, hs⟩ := h
              subst hs
              cases hd : d.name with
              | none =>
                refine namesUnique_dictSet_same TeamRec.name teams tid t _ hget ?_ hu
                simp [applyTeamUpdate, hd]
              | some nn =>
                refine namesUnique_dictSet_unique_holder TeamRec.name teams tid t _ hget ?_ hu
                intro q hq heq
                by_contra hne
                apply hcheck
                rw [hd]
                simp only [Option.any_some]
                refine List.any_eq_true.mpr ⟨q, hq, ?_⟩
                simp only [applyTeamUpdate, hd, Option.getD_some] at heq
                simp [hne, heq]
  · intro teams tid req rid s₂ hu h
    unfold add_users_to_team at h
    split at h
    · exact absurd h (by simp)
    · split at h
      · exact absurd h (by simp)
      · split at h
        · exact absurd h (by simp)
        · rename_i t hget
          rw [Except.ok.injEq, Prod.mk.injEq] at h
          obtain ⟨-, hs⟩ := h
          subst hs
          exact namesUnique_dictSet_same TeamRec.name teams tid t _ hget rfl hu
  · intro teams tid req rid s₂ hu h
    unfold remove_users_from_team at h
    split at h
    · exact absurd h (by simp)
    · split at h
      · exact absurd h (by simp)
      · rename_i t hget
        rw [Except.ok.injEq, Prod.mk.injEq] at h
        obtain ⟨-, hs⟩ := h
        subst hs
        exact namesUnique_dictSet_same TeamRec.name teams tid t _ hget rfl hu

/-! ## Witnesses: each hypothesis-bearing claim theorem applied at a
concrete input -/

/-- An existing board with no tasks. -/
def c6Board : BoardRec :=
  { name := "E", description := "d", team_id := "1", status := "OPEN",
    creation_time := "t1", end_time := none, tasks := [] }

/-- The task a successful concrete add_task stores. -/
def c7NewTask : TaskRec :=
  { title := "T2", description := "d", user_id := "1", status := "OPEN",
    creation_time := "t9" }

/-- First board of the C8 witness; its task object contains the id 1. -/
def c8BoardA : BoardRec :=
  { name := "A", description := "d", team_id := "1", status := "OPEN",
    creation_time := "t1", end_time := none, tasks := [("1", c2Task "OPEN")] }

/-- Second board of the C8 witness; it also contains the task id 1. -/
def c8BoardB : BoardRec :=
  { name := "B2", description := "d", team_id := "1", status := "OPEN",
    creation_time := "t1", end_time := none, tasks := [("1", c2Task "IN_PROGRESS")] }

/-- A team with members 1 and 2, for the overlapping-union witness. -/
def c9Team : TeamRec :=
  { name := "teamC", description := "d", admin := "1", creation_time := "t1",
    users := ["1", "2"] }

theorem C2_amended_witness :
    ∃ b, dictGet "1" [("1", c2Board "CLOSED" "COMPLETE" (some "t3"))] = some b
      ∧ b.status = "CLOSED" ∧ ∀ p ∈ b.tasks, p.2.status = "COMPLETE" :=
  C2_close_board_establishes_completeness "t3" [("1", c2Board "OPEN" "COMPLETE" none)]
    [("1", c2Board "CLOSED" "COMPLETE" (some "t3"))] "1" "1" rfl

theorem C4_amended_witness :
    NamesUnique UserRec.name [("1", c4Alice)]
    ∧ NamesUnique TeamRec.name (dictSet "1"
        (applyTeamUpdate c3Team { name := some "teamB", description := none, admin := none })
        [("1", c3Team)]) :=
  ⟨C4_amended_uniqueness_preservation.1 "t0" [] "alice" "A" "1" [("1", c4Alice)]
      (by simp [NamesUnique]) rfl,
    C4_amended_uniqueness_preservation.2.2.1 [("1", c3Team)] "1"
      { name := some "teamB", description := none, admin := none } "1"
      (dictSet "1"
        (applyTeamUpdate c3Team { name := some "teamB", description := none, admin := none })
        [("1", c3Team)])
      (by simp [NamesUnique]) rfl⟩

theorem C5_witness :
    (isErr (create_user "t9" [("1", c4Alice)] "alice" "X") = true
      ∧ commit [("1", c4Alice)] (create_user "t9" [("1", c4Alice)] "alice" "X")
        = [("1", c4Alice)])
    ∧ (isErr (create_team "t9" [("1", c3Team)] "teamA" "e" "2") = true
      ∧ commit [("1", c3Team)] (create_team "t9" [("1", c3Team)] "teamA" "e" "2")
        = [("1", c3Team)])
    ∧ (isErr (create_board "t9" [("1", c2Board0)] "B" "e" "1") = true
      ∧ commit [("1", c2Board0)] (create_board "t9" [("1", c2Board0)] "B" "e" "1")
        = [("1", c2Board0)]) :=
  C5_duplicate_create_fails "t9" [("1", c4Alice)] "alice" "X" [("1", c3Team)] "teamA" "e" "2"
    [("1", c2Board0)] "B" "e" "1"
    ⟨("1", c4Alice), by simp, rfl⟩
    ⟨("1", c3Team), by simp, rfl⟩
    ⟨("1", c2Board0), by simp, ⟨rfl, rfl⟩⟩

theorem C6_witness :
    (close_board "t9" [("1", c6Board)] "1"
      = .ok ("1", [("1", { c6Board with status := "CLOSED", end_time := some "t9" })]))
    ∧ (isErr (close_board "t9" [("1", c2Board "OPEN" "OPEN" none)] "1") = true
      ∧ commit [("1", c2Board "OPEN" "OPEN" none)]
          (close_board "t9" [("1", c2Board "OPEN" "OPEN" none)] "1")
        = [("1", c2Board "OPEN" "OPEN" none)]) :=
  ⟨(C6_close_board_zero_tasks_or_incomplete "t9" [("1", c6Board)] "1" c6Board
      (by decide) rfl).1 rfl,
    (C6_close_board_zero_tasks_or_incomplete "t9" [("1", c2Board "OPEN" "OPEN" none)] "1"
      (c2Board "OPEN" "OPEN" none) (by decide) rfl).2
      ⟨("1", c2Task "OPEN"), by simp [c2Board], by decide⟩⟩

theorem C7_witness :
    (isErr (add_task "t9" [("1", c2Board "CLOSED" "COMPLETE" (some "t3"))] "U" "d" "1" "1") = true
      ∧ commit [("1", c2Board "CLOSED" "COMPLETE" (some "t3"))]
          (add_task "t9" [("1", c2Board "CLOSED" "COMPLETE" (some "t3"))] "U" "d" "1" "1")
        = [("1", c2Board "CLOSED" "COMPLETE" (some "t3"))])
    ∧ isErr (add_task "t9" [("1", c2Board "OPEN" "OPEN" none)] "T" "d" "1" "1") = true
    ∧ (∃ b₂, dictGet "1" [("1", { c6Board with tasks := [("1", c7NewTask)] })] = some b₂
        ∧ b₂.status = c6Board.status
        ∧ dictGet "1" b₂.tasks = some c7NewTask
        ∧ ∀ k, k ≠ "1" → dictGet k b₂.tasks = dictGet k c6Board.tasks) :=
  ⟨(C7_add_task "t9" [("1", c2Board "CLOSED" "COMPLETE" (some "t3"))] "U" "d" "1" "1"
      (c2Board "CLOSED" "COMPLETE" (some "t3")) rfl).1 (by decide),
    ((C7_add_task "t9" [("1", c2Board "OPEN" "OPEN" none)] "T" "d" "1" "1"
      (c2Board "OPEN" "OPEN" none) rfl).2.1
      ⟨("1", c2Task "OPEN"), by simp [c2Board], rfl⟩).1,
    (C7_add_task "t9" [("1", c6Board)] "T2" "d" "1" "1" c6Board rfl).2.2 "1"
      [("1", { c6Board with tasks := [("1", c7NewTask)] })] rfl⟩

theorem C8_witness :
    update_task_status [("1", c8BoardA), ("2", c8BoardB)] "1" "COMPLETE"
      = .ok ("1", [("1", { c8BoardA with tasks := setTaskStatus "1" "COMPLETE" c8BoardA.tasks }),
          ("2", c8BoardB)]) :=
  (C8_update_task_status [("1", c8BoardA), ("2", c8BoardB)] "1" "COMPLETE").2.2
    [] "1" c8BoardA [("2", c8BoardB)] (by decide) (Or.inr (Or.inr rfl)) rfl
    (by intro p hp; simp at hp) (by decide)

theorem C9_witness :
    add_users_to_team [("1", c9Team)] "1" ["2", "3"]
      = .ok ("1", dictSet "1" { c9Team with users := (c9Team.users ++ ["2", "3"]).dedup }
          [("1", c9Team)])
    ∧ (c9Team.users ++ ["2", "3"]).dedup.Nodup
    ∧ ∀ x, x ∈ (c9Team.users ++ ["2", "3"]).dedup ↔ (x ∈ c9Team.users ∨ x ∈ ["2", "3"]) :=
  (C9_add_users_to_team [("1", c9Team)] "1" ["2", "3"] c9Team).2 (by decide) (by decide) rfl

theorem C10_witness :
    (∃ s₂, close_board "t9" [("1", c2Board "CLOSED" "COMPLETE" (some "t3"))] "1"
        = .ok ("1", s₂)
      ∧ dictGet "1" s₂ = some { c2Board "CLOSED" "COMPLETE" (some "t3") with
          status := "CLOSED", end_time := some "t9" })
    ∧ (c2Board "CLOSED" "COMPLETE" (some "t3")).status = "CLOSED"
    ∧ (c2Board "CLOSED" "COMPLETE" (some "t3")).end_time = some "t3"
    ∧ (some "t3" : Option String) ≠ some "t9" :=
  ⟨C10_close_board_ignores_current_status "t9"
      [("1", c2Board "CLOSED" "COMPLETE" (some "t3"))] "1"
      (c2Board "CLOSED" "COMPLETE" (some "t3")) (by decide) rfl (by decide),
    rfl, rfl, by decide⟩
